import Mathlib

/-!
Verification of the Glint SVG-to-3D pipeline against its specification.

The development shallowly embeds the geometry pipeline of
`src/app/editor/page.tsx` (the `SvgMeshGroup` build loop and its
normalization stage), the SVG loader of `src/lib/svg.tsx`, the video
conversion proxy of `src/app/api/get-video/route.ts`, the turntable
capture controller (`generateVideo`), and the depth-slider transition
logic.  Numeric values are modelled as exact rationals; the handful of
places where JavaScript number semantics matter (division by zero,
`Math.round`) are modelled explicitly (`JSNum`, `jsDiv`, `jsRound`).
Rotation angles, which the code always forms as `base + k * Math.PI`,
are modelled as pairs `(c, piK)` denoting the real number
`c + piK * Real.pi`.
-/

/-- A 3D vector with rational coordinates (models `THREE.Vector3`). -/
structure Vec3 where
  x : ℚ
  y : ℚ
  z : ℚ
deriving DecidableEq

/-- Componentwise addition of vectors. -/
def Vec3.add (a b : Vec3) : Vec3 := ⟨a.x + b.x, a.y + b.y, a.z + b.z⟩

/-- Componentwise negation (used for `geometry.translate(-c.x, -c.y, -c.z)`). -/
def Vec3.neg (a : Vec3) : Vec3 := ⟨-a.x, -a.y, -a.z⟩

/-- Componentwise minimum. -/
def vmin (a b : Vec3) : Vec3 := ⟨min a.x b.x, min a.y b.y, min a.z b.z⟩

/-- Componentwise maximum. -/
def vmax (a b : Vec3) : Vec3 := ⟨max a.x b.x, max a.y b.y, max a.z b.z⟩

/-- An axis-aligned bounding box (models `THREE.Box3`); `lo`/`hi` are the
`min`/`max` corners. -/
structure Box3 where
  lo : Vec3
  hi : Vec3
deriving DecidableEq

/-- `Box3.union`: the smallest box containing both boxes (componentwise
min of the `min` corners, max of the `max` corners). -/
def Box3.union (a b : Box3) : Box3 := ⟨vmin a.lo b.lo, vmax a.hi b.hi⟩

/-- `Box3.isEmpty`: `true` when some `max` component is below the
corresponding `min` component. -/
def Box3.isEmpty (b : Box3) : Bool :=
  b.hi.x < b.lo.x || b.hi.y < b.lo.y || b.hi.z < b.lo.z

/-- `Box3.getCenter`: midpoint of the two corners. -/
def Box3.getCenter (b : Box3) : Vec3 :=
  ⟨(b.lo.x + b.hi.x) / 2, (b.lo.y + b.hi.y) / 2, (b.lo.z + b.hi.z) / 2⟩

/-- `Box3.getSize`: `max - min`, or zero for an empty box (as in three.js). -/
def Box3.getSize (b : Box3) : Vec3 :=
  if b.isEmpty then ⟨0, 0, 0⟩
  else ⟨b.hi.x - b.lo.x, b.hi.y - b.lo.y, b.hi.z - b.lo.z⟩

/-- `Box3.expandByPoint`: grow a box to contain a point. -/
def Box3.expandByPoint (b : Box3) (p : Vec3) : Box3 := ⟨vmin b.lo p, vmax b.hi p⟩

/-- Shift a box by a vector (the effect of `geometry.translate` on the
geometry's bounding box). -/
def Box3.translate (b : Box3) (t : Vec3) : Box3 := ⟨b.lo.add t, b.hi.add t⟩

/-- A box is well-formed when `lo ≤ hi` componentwise; every box built
from at least one point is well-formed. -/
def Box3.wellFormed (b : Box3) : Prop :=
  b.lo.x ≤ b.hi.x ∧ b.lo.y ≤ b.hi.y ∧ b.lo.z ≤ b.hi.z

/-- A mesh geometry is its list of vertex positions (models the
`position` buffer attribute of a `THREE.BufferGeometry`). -/
abbrev Geom := List Vec3

/-- `geometry.computeBoundingBox()`: the tight box around the vertex
positions; `none` models the degenerate empty-attribute box
(`+∞`/`-∞` corners), which acts as a unit for `Box3.union`. -/
def geomBoundingBox : Geom → Option Box3
  | [] => none
  | p :: ps => some (ps.foldl Box3.expandByPoint ⟨p, p⟩)

/-- `geometry.translate(t.x, t.y, t.z)`: shift every vertex. -/
def geomTranslate (g : Geom) (t : Vec3) : Geom := g.map (fun v => v.add t)

/-- One step of the combined-box loop of `SvgMeshGroup`
(`page.tsx` lines 123-127): union the next geometry's bounding box into
the accumulator, skipping geometries whose box is degenerate. -/
def unionStep (acc : Option Box3) (g : Geom) : Option Box3 :=
  match geomBoundingBox g with
  | none => acc
  | some bg =>
    match acc with
    | none => some bg
    | some b => some (b.union bg)

/-- The combined bounding box of all mesh geometries
(`const combinedBox = new THREE.Box3(); meshes.forEach(... union ...)`). -/
def combinedBox (geoms : List Geom) : Option Box3 :=
  geoms.foldl unionStep none

/-- A JavaScript number outcome: finite rational, `Infinity`,
`-Infinity`, or `NaN`. -/
inductive JSNum where
  | fin (q : ℚ)
  | posInf
  | negInf
  | nan
deriving DecidableEq

/-- JavaScript division `a / b`: ordinary division for `b ≠ 0`, and the
IEEE-754 results `±Infinity` / `NaN` for `b = 0`. -/
def jsDiv (a b : ℚ) : JSNum :=
  if b = 0 then (if 0 < a then .posInf else if a < 0 then .negInf else .nan)
  else .fin (a / b)

/-- `Math.max(size.x, size.y, size.z)`: the largest dimension of a size
vector. -/
def maxDim3 (s : Vec3) : ℚ := max s.x (max s.y s.z)

/-- Result of the normalization stage: the (possibly re-centred) mesh
geometries and the uniform scale applied to the outer group. -/
structure NormResult where
  geoms : List Geom
  scaleJS : JSNum
deriving DecidableEq

/-- The normalization stage of `SvgMeshGroup`
(`src/app/editor/page.tsx` lines 121-137): if any meshes were built,
compute the union bounding box of their geometries; unless that box is
empty, translate every geometry by the negative of the box's center
(baking centering into vertex data) and set the outer group's uniform
scale to `50 / Math.max(size.x, size.y, size.z)`.  The outer group's
scale was reset to 1 at the top of the rebuild (line 68), so every path
that skips scaling leaves it at 1.  Note the current revision divides
without a zero-size guard. -/
def normalizeGroup (geoms : List Geom) : NormResult :=
  if geoms = [] then { geoms := geoms, scaleJS := .fin 1 }
  else
    match combinedBox geoms with
    | none => { geoms := geoms, scaleJS := .fin 1 }
    | some b =>
      if b.isEmpty then { geoms := geoms, scaleJS := .fin 1 }
      else
        { geoms := geoms.map (fun g => geomTranslate g b.getCenter.neg)
          scaleJS := jsDiv 50 (maxDim3 b.getSize) }

/-- The guarded scale computation of the earlier revision
(`src/unnamed/part_001` line 118):
`maxDim > 0 && Number.isFinite(maxDim) ? 50 / maxDim : 1`
(finiteness is automatic for rationals). -/
def scaleGuarded (maxDim : ℚ) : JSNum :=
  if 0 < maxDim then .fin (50 / maxDim) else .fin 1

/-- A 2D point with rational coordinates (models `THREE.Vector2`). -/
structure Vec2 where
  x : ℚ
  y : ℚ
deriving DecidableEq

/-- A planar shape as seen by the build loop: the boundary points
returned by `shape.getPoints()` and, abstractly, the vertex positions
that `THREE.ExtrudeGeometry(shape, config)` would produce for it. -/
structure Shape where
  pts : List Vec2
  extrudedVerts : Geom
deriving DecidableEq

/-- The mesh-building loop of `SvgMeshGroup`
(`src/app/editor/page.tsx` lines 75-119): for each extracted shape,
skip it when it has fewer than 3 boundary points, extrude it, and skip
the result when the extrusion produced zero vertices; surviving
geometries are added to the inner group in order. -/
def buildMeshes (shapes : List Shape) : List Geom :=
  shapes.filterMap (fun s =>
    if s.pts.length < 3 then none
    else if s.extrudedVerts.length = 0 then none
    else some s.extrudedVerts)

/-- JavaScript `Math.round`: round half away from zero toward `+∞`,
i.e. `⌊q + 1/2⌋`. -/
def jsRound (q : ℚ) : ℤ := ⌊q + 1/2⌋

/-- The adaptive `curveSegments` choice of the build loop
(`src/app/editor/page.tsx` lines 83-85):
high quality: `Math.min(96, Math.max(32, Math.round(pointCount * 0.6)))`;
otherwise: `Math.min(64, Math.max(16, Math.round(pointCount * 0.4)))`. -/
def curveSeg (pointCount : ℕ) (highQuality : Bool) : ℤ :=
  if highQuality then min 96 (max 32 (jsRound ((pointCount : ℚ) * (6/10))))
  else min 64 (max 16 (jsRound ((pointCount : ℚ) * (4/10))))

/-- One parsed SVG path; `shapes` is the result of `path.toShapes(true)`. -/
structure SVGPathM where
  shapes : List Shape
deriving DecidableEq

/-- `loadSvg` of `src/lib/svg.tsx` lines 3-14: parse the SVG text and
flat-map each path into its shapes; any exception thrown by the parser
is caught and turned into the empty list.  The parser itself (the
three.js `SVGLoader`) is abstracted as a fallible function argument;
`loadSvg` is total, so no failure escapes to the caller. -/
def loadSvg (parseSvg : String → Except String (List SVGPathM)) (svg : String) :
    List Shape :=
  match parseSvg svg with
  | .ok paths => paths.flatMap (fun p => p.shapes)
  | .error _ => []

/-- A file extracted from the multipart form data. -/
structure JSFile where
  name : String
  bytes : String
deriving DecidableEq

/-- The upstream conversion service's response: its `ok` flag and body. -/
structure UpstreamRes where
  ok : Bool
  body : String
deriving DecidableEq

/-- A response body: a structured JSON error or a streamed byte body. -/
inductive ResBody where
  | json (err : String)
  | stream (bytes : String)
deriving DecidableEq

/-- The fields of the proxy's HTTP response that the contract mentions. -/
structure ApiResponse where
  status : ℕ
  contentType : Option String
  contentDisp : Option String
  body : ResBody
deriving DecidableEq

/-- The `POST` handler of `src/app/api/get-video/route.ts` lines 5-38:
a failed `formData()` read hits the outer catch (500, JSON error);
a missing `"file"` field yields 400 with a JSON error; an upstream
failure yields 500 with a JSON error; success streams the upstream body
with `Content-Type: video/mp4` and a download `Content-Disposition`. -/
def postHandler (formData : Except String (Option JSFile))
    (upstream : JSFile → UpstreamRes) : ApiResponse :=
  match formData with
  | .error _ => ⟨500, none, none, .json "Internal error"⟩
  | .ok none => ⟨400, none, none, .json "No file uploaded"⟩
  | .ok (some f) =>
    let r := upstream f
    if r.ok then
      ⟨200, some "video/mp4", some "attachment; filename=logo360.mp4",
        .stream r.body⟩
    else ⟨500, none, none, .json "Backend conversion failed"⟩

/-- State of the thickness slider UI (`SettingsContent`, lines 403-419,
and `EditorPage`, lines 156-161): the synchronously displayed label
(`thicknessPending`), the committed `thickness` state driving the
geometry rebuild effect, and the queue of low-priority updates submitted
via `startTransition` and not yet flushed.  React batches all transition
updates into one low-priority render, applying the queued set-state
calls in order. -/
structure SliderUI where
  label : ℕ
  thickness : ℕ
  transQueue : List ℕ
deriving DecidableEq

/-- The slider's `onChange` handler (lines 413-417):
`setThicknessPending(val)` updates the displayed label synchronously;
`startTransition(() => setThickness(val))` queues the committed update
at low priority. -/
def onThicknessChange (s : SliderUI) (val : ℕ) : SliderUI :=
  { label := val, thickness := s.thickness, transQueue := s.transQueue ++ [val] }

/-- The scheduler flushing the queued transition updates: one
low-priority render applies every queued `setThickness` in order (the
last value wins), and the rebuild effect (dependency `[.., thickness, ..]`,
line 143) fires once in that render iff the committed thickness changed.
Returns the new UI state and the list of rebuild depths triggered by the
flush. -/
def flushTransitions (s : SliderUI) : SliderUI × List ℕ :=
  match s.transQueue with
  | [] => (s, [])
  | q =>
    let final := q.foldl (fun _ v => v) s.thickness
    ({ label := s.label, thickness := final, transQueue := [] },
      if final = s.thickness then [] else [final])

/-- A rotation angle of the shape `c + piK * π` (the code only ever
forms angles as a base plus rational multiples of `Math.PI`). -/
structure RotAngle where
  c : ℚ
  piK : ℚ
deriving DecidableEq

/-- Euler angles of a group, each a `RotAngle`. -/
structure RotVec where
  x : RotAngle
  y : RotAngle
  z : RotAngle
deriving DecidableEq

/-- `progress` in the capture animation loop
(`src/app/editor/page.tsx` line 319):
`Math.min(elapsed / rotationDuration, 1)`. -/
def jsProgress (dur t : ℚ) : ℚ := min (t / dur) 1

/-- The rotation written each frame (line 322):
`rotation.y = startRotY + progress * Math.PI * 2`, as a function of the
entry angle, the configured duration and the wall-clock elapsed time
(seconds); frame rate does not appear. -/
def captureRotY (startRotY : RotAngle) (dur t : ℚ) : RotAngle :=
  ⟨startRotY.c, startRotY.piK + jsProgress dur t * 2⟩

/-- The stop condition of the capture loop (line 325):
the recorder is stopped once `elapsed >= rotationDuration + 1`
(the one-second flush buffer). -/
def recorderStopped (dur t : ℚ) : Bool := dur + 1 ≤ t

/-- The mutable state touched by the capture/export flow: group
transform, renderer clear alpha and device pixel ratio, and the UI
flags (`generating`, `highQuality`, and whether an alert was shown). -/
structure CaptureState where
  rot : RotVec
  pos : Vec3
  clearAlpha : ℚ
  dpr : ℚ
  generating : Bool
  highQuality : Bool
  alerted : Bool
deriving DecidableEq

/-- Which way one run of the capture/export flow ends: the encoder
fails synchronously (outer catch, lines 330-334), the conversion fetch
fails inside `onstop` (lines 305-309), or everything succeeds. -/
inductive CaptureOutcome where
  | encoderFail
  | convertFail
  | success
deriving DecidableEq

/-- `generateVideo` of `src/app/editor/page.tsx` lines 226-335, as a
state transformer indexed by the run's outcome.  The flow snapshots the
group transform, sets `generating`/`highQuality`, forces clear alpha to
1 for the recording, and snapshots the pixel ratio.  On encoder failure
the outer catch only clears the flags and alerts.  Otherwise the
animation drives `rotation.y` through one full turn, and `onstop` sets
clear alpha to the constant 1, restores the pixel ratio and the
snapshotted transform, drops back to low quality, alerts on a failed
conversion, and finally clears `generating`. -/
def runGenerateVideo (s0 : CaptureState) (oc : CaptureOutcome) : CaptureState :=
  let originalRot := s0.rot
  let originalPos := s0.pos
  let s1 : CaptureState := { s0 with generating := true, highQuality := true }
  let startRotY := s1.rot.y
  let s2 : CaptureState := { s1 with clearAlpha := 1 }
  let origDpr := s2.dpr
  match oc with
  | .encoderFail =>
    { s2 with generating := false, highQuality := false, alerted := true }
  | _ =>
    let s3 : CaptureState :=
      { s2 with rot := { s2.rot with y := ⟨startRotY.c, startRotY.piK + 2⟩ } }
    let s4 : CaptureState := { s3 with clearAlpha := 1, dpr := origDpr }
    let s5 : CaptureState :=
      { s4 with rot := originalRot, pos := originalPos, highQuality := false }
    match oc with
    | .convertFail => { s5 with alerted := true, generating := false }
    | _ => { s5 with generating := false }

/-- A concrete pre-capture state whose clear alpha is transparent (0):
used to exhibit that the flow's cleanup sets clear alpha to the fixed
value 1 instead of restoring a snapshot. -/
def s0Ex : CaptureState :=
  { rot := ⟨⟨0, 0⟩, ⟨3, 0⟩, ⟨0, 1⟩⟩
    pos := ⟨1, 2, 3⟩
    clearAlpha := 0
    dpr := 2
    generating := false
    highQuality := false
    alerted := false }

/-! ## Helper lemmas about boxes and translation -/

theorem Vec3.add_neg (a : Vec3) : a.add a.neg = ⟨0, 0, 0⟩ := by
  simp [Vec3.add, Vec3.neg]

theorem Box3.expandByPoint_translate (b : Box3) (p t : Vec3) :
    (b.translate t).expandByPoint (p.add t) = (b.expandByPoint p).translate t := by
  simp only [Box3.translate, Box3.expandByPoint, vmin, vmax, Vec3.add]
  refine congrArg₂ _ ?_ ?_ <;>
    simp [min_add_add_right, max_add_add_right]

theorem foldl_expandByPoint_translate (ps : List Vec3) (b : Box3) (t : Vec3) :
    (ps.map (fun v => v.add t)).foldl Box3.expandByPoint (b.translate t) =
      (ps.foldl Box3.expandByPoint b).translate t := by
  induction ps generalizing b with
  | nil => rfl
  | cons p ps ih =>
    simp only [List.map_cons, List.foldl_cons]
    rw [Box3.expandByPoint_translate, ih]

theorem geomBoundingBox_translate (g : Geom) (t : Vec3) :
    geomBoundingBox (geomTranslate g t) =
      (geomBoundingBox g).map (fun b => b.translate t) := by
  cases g with
  | nil => rfl
  | cons p ps =>
    simp only [geomTranslate, geomBoundingBox, List.map_cons, Option.map_some]
    have hpt : (⟨p.add t, p.add t⟩ : Box3) = Box3.translate ⟨p, p⟩ t := rfl
    rw [hpt, foldl_expandByPoint_translate]
    rfl

theorem Box3.union_translate (a b : Box3) (t : Vec3) :
    (a.translate t).union (b.translate t) = (a.union b).translate t := by
  simp only [Box3.translate, Box3.union, vmin, vmax, Vec3.add]
  refine congrArg₂ _ ?_ ?_ <;>
    simp [min_add_add_right, max_add_add_right]

theorem unionStep_translate (acc : Option Box3) (g : Geom) (t : Vec3) :
    unionStep (acc.map (fun b => b.translate t)) (geomTranslate g t) =
      (unionStep acc g).map (fun b => b.translate t) := by
  simp only [unionStep, geomBoundingBox_translate]
  cases geomBoundingBox g with
  | none => rfl
  | some bg =>
    cases acc with
    | none => rfl
    | some b => simp [Box3.union_translate]

theorem foldl_unionStep_translate (geoms : List Geom) (acc : Option Box3) (t : Vec3) :
    (geoms.map (fun g => geomTranslate g t)).foldl unionStep
        (acc.map (fun b => b.translate t)) =
      (geoms.foldl unionStep acc).map (fun b => b.translate t) := by
  induction geoms generalizing acc with
  | nil => rfl
  | cons g gs ih =>
    simp only [List.map_cons, List.foldl_cons]
    rw [unionStep_translate, ih]

theorem combinedBox_translate (geoms : List Geom) (t : Vec3) :
    combinedBox (geoms.map (fun g => geomTranslate g t)) =
      (combinedBox geoms).map (fun b => b.translate t) := by
  have h := foldl_unionStep_translate geoms none t
  simpa [combinedBox] using h

theorem Box3.wellFormed_point (p : Vec3) : (⟨p, p⟩ : Box3).wellFormed := by
  refine ⟨le_refl _, le_refl _, le_refl _⟩

theorem Box3.wellFormed_expand (b : Box3) (p : Vec3) (h : b.wellFormed) :
    (b.expandByPoint p).wellFormed := by
  obtain ⟨h1, h2, h3⟩ := h
  refine ⟨?_, ?_, ?_⟩ <;>
    simp only [Box3.expandByPoint, vmin, vmax] <;>
    · exact le_trans (min_le_left _ _) (le_trans (by assumption) (le_max_left _ _))

theorem Box3.wellFormed_foldl_expand (ps : List Vec3) (b : Box3) (h : b.wellFormed) :
    (ps.foldl Box3.expandByPoint b).wellFormed := by
  induction ps generalizing b with
  | nil => exact h
  | cons p ps ih => exact ih _ (Box3.wellFormed_expand b p h)

theorem geomBoundingBox_wellFormed (g : Geom) (b : Box3)
    (h : geomBoundingBox g = some b) : b.wellFormed := by
  cases g with
  | nil => simp [geomBoundingBox] at h
  | cons p ps =>
    simp only [geomBoundingBox, Option.some_inj] at h
    subst h
    exact Box3.wellFormed_foldl_expand ps _ (Box3.wellFormed_point p)

theorem Box3.wellFormed_union (a b : Box3) (ha : a.wellFormed) (hb : b.wellFormed) :
    (a.union b).wellFormed := by
  obtain ⟨a1, a2, a3⟩ := ha
  obtain ⟨b1, b2, b3⟩ := hb
  refine ⟨?_, ?_, ?_⟩ <;>
    simp only [Box3.union, vmin, vmax] <;>
    · exact le_trans (min_le_left _ _) (le_trans (by assumption) (le_max_left _ _))

theorem foldl_unionStep_wellFormed (geoms : List Geom) (acc : Option Box3)
    (hacc : ∀ bb, acc = some bb → bb.wellFormed) (b : Box3)
    (h : geoms.foldl unionStep acc = some b) : b.wellFormed := by
  induction geoms generalizing acc with
  | nil => exact hacc b h
  | cons g gs ih =>
    simp only [List.foldl_cons] at h
    refine ih (unionStep acc g) ?_ h
    intro bb hbb
    simp only [unionStep] at hbb
    cases hg : geomBoundingBox g with
    | none =>
      rw [hg] at hbb
      exact hacc bb hbb
    | some bg =>
      rw [hg] at hbb
      cases acc with
      | none =>
        simp only [Option.some_inj] at hbb
        subst hbb
        exact geomBoundingBox_wellFormed g bg hg
      | some bprev =>
        simp only [Option.some_inj] at hbb
        subst hbb
        exact Box3.wellFormed_union _ _ (hacc bprev rfl)
          (geomBoundingBox_wellFormed g bg hg)

theorem combinedBox_wellFormed (geoms : List Geom) (b : Box3)
    (h : combinedBox geoms = some b) : b.wellFormed := by
  exact foldl_unionStep_wellFormed geoms none (by simp) b h

theorem Box3.wellFormed_not_isEmpty (b : Box3) (h : b.wellFormed) :
    b.isEmpty = false := by
  obtain ⟨h1, h2, h3⟩ := h
  simp [Box3.isEmpty, not_lt.mpr h1, not_lt.mpr h2, not_lt.mpr h3]

theorem Box3.isEmpty_translate (b : Box3) (t : Vec3) :
    (b.translate t).isEmpty = b.isEmpty := by
  simp [Box3.isEmpty, Box3.translate, Vec3.add]

theorem Box3.getSize_translate (b : Box3) (t : Vec3) :
    (b.translate t).getSize = b.getSize := by
  rw [Box3.getSize, Box3.getSize, Box3.isEmpty_translate]
  by_cases h : b.isEmpty = true
  · simp [h]
  · simp only [Bool.not_eq_true] at h
    simp only [h, Bool.false_eq_true, if_false, Box3.translate, Vec3.add]
    simp only [Vec3.mk.injEq]
    refine ⟨by ring, by ring, by ring⟩

theorem Box3.getCenter_translate (b : Box3) (t : Vec3) :
    (b.translate t).getCenter = b.getCenter.add t := by
  simp only [Box3.getCenter, Box3.translate, Vec3.add, Vec3.mk.injEq]
  refine ⟨by ring, by ring, by ring⟩

/-! ## Claim theorems -/

/-- Claim C1: for every document whose extraction yields at least one
non-degenerate shape (so the built meshes have a combined bounding box
of positive largest dimension), after normalization the union bounding
box of all built meshes is centered at the origin — the centering being
baked into the vertex data by translating each geometry by the negative
of the combined-box center — and the outer group's uniform scale factor
`50 / maxDim` maps the box's largest dimension to the reference size,
so the scaled largest dimension equals 50. -/
theorem normalizeGroup_centers_and_scales (shapes : List Shape) (b : Box3)
    (hb : combinedBox (buildMeshes shapes) = some b)
    (hdim : 0 < maxDim3 b.getSize) :
    combinedBox (normalizeGroup (buildMeshes shapes)).geoms =
      some (b.translate b.getCenter.neg) ∧
    (b.translate b.getCenter.neg).getCenter = ⟨0, 0, 0⟩ ∧
    (normalizeGroup (buildMeshes shapes)).scaleJS =
      .fin (50 / maxDim3 b.getSize) ∧
    50 / maxDim3 b.getSize * maxDim3 ((b.translate b.getCenter.neg).getSize) = 50 := by
  have hne : buildMeshes shapes ≠ [] := by
    intro h0
    rw [h0] at hb
    simp [combinedBox] at hb
  have hwf := combinedBox_wellFormed _ b hb
  have hbe : b.isEmpty = false := Box3.wellFormed_not_isEmpty b hwf
  have hmne : maxDim3 b.getSize ≠ 0 := ne_of_gt hdim
  have hres : normalizeGroup (buildMeshes shapes) =
      { geoms := (buildMeshes shapes).map
          (fun g => geomTranslate g b.getCenter.neg)
        scaleJS := jsDiv 50 (maxDim3 b.getSize) } := by
    rw [normalizeGroup, if_neg hne, hb]
    simp [hbe]
  refine ⟨?_, ?_, ?_, ?_⟩
  · rw [hres]
    simp only
    rw [combinedBox_translate, hb]
    rfl
  · rw [Box3.getCenter_translate, Vec3.add_neg]
  · rw [hres]
    simp only [jsDiv, if_neg hmne]
  · rw [Box3.getSize_translate]
    exact div_mul_cancel₀ 50 hmne

/-- Witness for claim C1: a single triangle-like shape extruding to two vertices
spanning a 10 by 4 by 2 box. -/
theorem normalizeGroup_centers_and_scales_witness :
    combinedBox (normalizeGroup (buildMeshes
        [⟨[⟨0, 0⟩, ⟨1, 0⟩, ⟨0, 1⟩], [⟨0, 0, 0⟩, ⟨10, 4, 2⟩]⟩])).geoms =
      some ((⟨⟨0, 0, 0⟩, ⟨10, 4, 2⟩⟩ : Box3).translate
        (⟨⟨0, 0, 0⟩, ⟨10, 4, 2⟩⟩ : Box3).getCenter.neg) ∧
    ((⟨⟨0, 0, 0⟩, ⟨10, 4, 2⟩⟩ : Box3).translate
        (⟨⟨0, 0, 0⟩, ⟨10, 4, 2⟩⟩ : Box3).getCenter.neg).getCenter = ⟨0, 0, 0⟩ ∧
    (normalizeGroup (buildMeshes
        [⟨[⟨0, 0⟩, ⟨1, 0⟩, ⟨0, 1⟩], [⟨0, 0, 0⟩, ⟨10, 4, 2⟩]⟩])).scaleJS =
      .fin (50 / maxDim3 (⟨⟨0, 0, 0⟩, ⟨10, 4, 2⟩⟩ : Box3).getSize) ∧
    50 / maxDim3 (⟨⟨0, 0, 0⟩, ⟨10, 4, 2⟩⟩ : Box3).getSize *
      maxDim3 (((⟨⟨0, 0, 0⟩, ⟨10, 4, 2⟩⟩ : Box3).translate
        (⟨⟨0, 0, 0⟩, ⟨10, 4, 2⟩⟩ : Box3).getCenter.neg).getSize) = 50 :=
  normalizeGroup_centers_and_scales
    [⟨[⟨0, 0⟩, ⟨1, 0⟩, ⟨0, 1⟩], [⟨0, 0, 0⟩, ⟨10, 4, 2⟩]⟩]
    ⟨⟨0, 0, 0⟩, ⟨10, 4, 2⟩⟩ (by rfl)
    (by norm_num [maxDim3, Box3.getSize, Box3.isEmpty])

/-- Claim C2: the current editor revision's normalization has no zero-size
guard: a surviving mesh whose vertices coincide (combined bounding box
of zero size, yet not `isEmpty`) makes line 134 compute
`50 / 0 = Infinity` and apply it, instead of defaulting the scale to 1
and skipping scaling as the claim requires. -/
theorem normalizeGroup_zero_size_posInf :
    (normalizeGroup [[⟨0, 0, 0⟩]]).scaleJS = JSNum.posInf := by
  simp [normalizeGroup, combinedBox, unionStep, geomBoundingBox, Box3.isEmpty,
    Box3.getSize, maxDim3, jsDiv]

/-- The earlier revision (`src/unnamed/part_001` line 118) implements
the guard the specification calls a hard requirement: a zero-size
largest dimension defaults the scale to 1. -/
theorem scaleGuarded_zero_size_one : scaleGuarded 0 = JSNum.fin 1 := by
  simp [scaleGuarded]

/-- Claim C3: `loadSvg` is a total function — no thrown failure reaches the
caller — and on any parse error it returns the empty sequence; on
success it returns the flat-mapped shapes of the parsed paths. -/
theorem loadSvg_error_yields_empty
    (parseSvg : String → Except String (List SVGPathM)) (svg : String) :
    (∀ e, parseSvg svg = .error e → loadSvg parseSvg svg = []) ∧
    (∀ paths, parseSvg svg = .ok paths →
      loadSvg parseSvg svg = paths.flatMap (fun p => p.shapes)) := by
  constructor
  · intro e he
    simp [loadSvg, he]
  · intro paths hp
    simp [loadSvg, hp]

/-- Witness for claim C3: a parser that always fails yields the empty shape list. -/
theorem loadSvg_error_yields_empty_witness :
    loadSvg (fun _ => Except.error "unexpected token") "<not-svg>" = [] :=
  (loadSvg_error_yields_empty (fun _ => Except.error "unexpected token")
    "<not-svg>").1 "unexpected token" rfl

/-- Claim C6: the build loop adds at most one mesh per extracted shape; a
document whose shapes all have fewer than 3 points (in particular the
empty document) yields an empty mesh group; every geometry added is
non-empty (zero-vertex extrusions are skipped); and every added mesh
comes from a shape with at least 3 boundary points. -/
theorem buildMeshes_filters_degenerate (shapes : List Shape) :
    (buildMeshes shapes).length ≤ shapes.length ∧
    buildMeshes ([] : List Shape) = [] ∧
    ((∀ s ∈ shapes, s.pts.length < 3) → buildMeshes shapes = []) ∧
    (∀ g ∈ buildMeshes shapes, g ≠ []) ∧
    (∀ g ∈ buildMeshes shapes, ∃ s ∈ shapes,
      3 ≤ s.pts.length ∧ s.extrudedVerts = g) := by
  refine ⟨List.length_filterMap_le _ _, rfl, ?_, ?_, ?_⟩
  · intro hdeg
    refine List.filterMap_eq_nil_iff.mpr ?_
    intro s hs
    simp [if_pos (hdeg s hs)]
  · intro g hg
    obtain ⟨s, _, hfs⟩ := List.mem_filterMap.mp hg
    by_cases h3 : s.pts.length < 3
    · simp [h3] at hfs
    · by_cases h0 : s.extrudedVerts.length = 0
      · simp [h3, h0] at hfs
      · simp only [if_neg h3, if_neg h0, Option.some_inj] at hfs
        subst hfs
        intro hnil
        exact h0 (by simp [hnil])
  · intro g hg
    obtain ⟨s, hs, hfs⟩ := List.mem_filterMap.mp hg
    by_cases h3 : s.pts.length < 3
    · simp [h3] at hfs
    · by_cases h0 : s.extrudedVerts.length = 0
      · simp [h3, h0] at hfs
      · simp only [if_neg h3, if_neg h0, Option.some_inj] at hfs
        exact ⟨s, hs, Nat.le_of_not_lt h3, hfs⟩

/-- Witness for claim C6: a document with a single 1-point shape yields an empty
mesh group. -/
theorem buildMeshes_filters_degenerate_witness :
    buildMeshes [⟨[⟨0, 0⟩], [⟨0, 0, 0⟩]⟩] = [] :=
  (buildMeshes_filters_degenerate [⟨[⟨0, 0⟩], [⟨0, 0, 0⟩]⟩]).2.2.1
    (by intro s hs; simp at hs; simp [hs])

/-- Claim C7: for every shape with at least 3 boundary points, the chosen
`curveSegments` lies in the fixed range 16-96 in both quality modes,
and equals the clamped rounded fractions of the point count the build
loop computes. -/
theorem curveSeg_bounded (n : ℕ) (hq : Bool) (_h : 3 ≤ n) :
    16 ≤ curveSeg n hq ∧ curveSeg n hq ≤ 96 ∧
    curveSeg n true = min 96 (max 32 (jsRound ((n : ℚ) * (6/10)))) ∧
    curveSeg n false = min 64 (max 16 (jsRound ((n : ℚ) * (4/10)))) := by
  refine ⟨?_, ?_, rfl, rfl⟩ <;> cases hq <;> simp only [curveSeg, if_true, if_false,
    Bool.false_eq_true, Bool.true_eq_false] <;> omega

/-- Witness for claim C7: a 3-point shape in high-quality mode. -/
theorem curveSeg_bounded_witness :
    16 ≤ curveSeg 3 true ∧ curveSeg 3 true ≤ 96 ∧
    curveSeg 3 true = min 96 (max 32 (jsRound ((3 : ℚ) * (6/10)))) ∧
    curveSeg 3 false = min 64 (max 16 (jsRound ((3 : ℚ) * (4/10)))) :=
  curveSeg_bounded 3 true (by norm_num)

/-- Claim C4: during capture the vertical rotation angle is the linear
function `startRotY + min(elapsed/duration, 1) * 2π` of wall-clock
elapsed time (frame rate does not appear): at elapsed 0 it equals the
entry angle, at elapsed `duration` it equals the entry angle plus 2π
(stated both on the `(c, piK)` encoding and as the denoted real
number), it is linear in between, and the recorder's stop condition
fires exactly once elapsed time reaches `duration + 1` (the flush
margin). -/
theorem captureRotY_linear_drive (start : RotAngle) (dur : ℚ) (hD : 0 < dur) :
    captureRotY start dur 0 = start ∧
    captureRotY start dur dur = ⟨start.c, start.piK + 2⟩ ∧
    ((captureRotY start dur dur).c : ℝ) +
        (captureRotY start dur dur).piK * Real.pi =
      ((start.c : ℝ) + start.piK * Real.pi) + 2 * Real.pi ∧
    (∀ t, 0 ≤ t → t ≤ dur →
      captureRotY start dur t = ⟨start.c, start.piK + t / dur * 2⟩) ∧
    recorderStopped dur (dur + 1) = true ∧
    (∀ t, t < dur + 1 → recorderStopped dur t = false) := by
  have hone : dur / dur = 1 := div_self (ne_of_gt hD)
  have hdd : captureRotY start dur dur = ⟨start.c, start.piK + 2⟩ := by
    simp [captureRotY, jsProgress, hone]
  refine ⟨?_, hdd, ?_, ?_, ?_, ?_⟩
  · simp [captureRotY, jsProgress, zero_div]
  · rw [hdd]
    push_cast
    ring
  · intro t ht0 htD
    have hle : t / dur ≤ 1 := (div_le_one hD).mpr htD
    simp [captureRotY, jsProgress, min_eq_left hle]
  · simp [recorderStopped]
  · intro t ht
    simp [recorderStopped, not_le.mpr ht]

/-- Witness for claim C4: entry angle 0, duration 5 seconds. -/
theorem captureRotY_linear_drive_witness :
    captureRotY ⟨0, 0⟩ 5 0 = ⟨0, 0⟩ ∧
    captureRotY ⟨0, 0⟩ 5 5 = ⟨0, 0 + 2⟩ ∧
    ((captureRotY ⟨0, 0⟩ 5 5).c : ℝ) +
        (captureRotY ⟨0, 0⟩ 5 5).piK * Real.pi =
      (((0 : ℚ) : ℝ) + (0 : ℚ) * Real.pi) + 2 * Real.pi ∧
    (∀ t, 0 ≤ t → t ≤ 5 →
      captureRotY ⟨0, 0⟩ 5 t = ⟨0, 0 + t / 5 * 2⟩) ∧
    recorderStopped 5 (5 + 1) = true ∧
    (∀ t, t < 5 + 1 → recorderStopped 5 t = false) := by
  exact captureRotY_linear_drive ⟨0, 0⟩ 5 (by norm_num)

/-- Claim C10: during capture the rotation angle never exceeds the entry
angle plus 2π — the progress term is clamped at 1 — and for every
elapsed time at or past the configured duration (in particular during
the whole flush margin) the angle holds constant at exactly the entry
angle plus 2π. -/
theorem captureRotY_clamped (start : RotAngle) (dur t : ℚ) (hD : 0 < dur) :
    (captureRotY start dur t).c = start.c ∧
    (captureRotY start dur t).piK ≤ start.piK + 2 ∧
    ((captureRotY start dur t).c : ℝ) +
        (captureRotY start dur t).piK * Real.pi ≤
      ((start.c : ℝ) + start.piK * Real.pi) + 2 * Real.pi ∧
    (dur ≤ t → captureRotY start dur t = ⟨start.c, start.piK + 2⟩) := by
  have hp1 : jsProgress dur t ≤ 1 := min_le_right _ _
  have hpiK : (captureRotY start dur t).piK ≤ start.piK + 2 := by
    simp only [captureRotY]
    nlinarith
  refine ⟨rfl, hpiK, ?_, ?_⟩
  · have hp1R : ((jsProgress dur t : ℚ) : ℝ) ≤ 1 := by exact_mod_cast hp1
    have hpi := Real.pi_pos.le
    simp only [captureRotY]
    push_cast
    nlinarith [mul_nonneg (sub_nonneg.mpr hp1R) hpi]
  · intro hdt
    have hge : 1 ≤ t / dur := (one_le_div hD).mpr hdt
    simp [captureRotY, jsProgress, min_eq_right hge]

/-- Witness for claim C10: entry angle 0, duration 5, sampled at elapsed 7
(inside the flush margin). -/
theorem captureRotY_clamped_witness :
    (captureRotY ⟨0, 0⟩ 5 7).c = 0 ∧
    (captureRotY ⟨0, 0⟩ 5 7).piK ≤ 0 + 2 ∧
    ((captureRotY ⟨0, 0⟩ 5 7).c : ℝ) +
        (captureRotY ⟨0, 0⟩ 5 7).piK * Real.pi ≤
      (((0 : ℚ) : ℝ) + (0 : ℚ) * Real.pi) + 2 * Real.pi ∧
    ((5 : ℚ) ≤ 7 → captureRotY ⟨0, 0⟩ 5 7 = ⟨0, 0 + 2⟩) :=
  captureRotY_clamped ⟨0, 0⟩ 5 7 (by norm_num)

/-- Claim C8: the conversion proxy's `POST` handler returns 400 with a
structured error body when the multipart field `"file"` is absent (and
500 with a structured error if reading the form data itself fails),
returns 500 with a structured error when the upstream conversion
request fails, and on success returns 200 streaming the upstream body
with `Content-Type: video/mp4` and a download `Content-Disposition`. -/
theorem postHandler_contract (upstream : JSFile → UpstreamRes) :
    postHandler (.ok none) upstream =
      ⟨400, none, none, .json "No file uploaded"⟩ ∧
    (∀ e, postHandler (.error e) upstream =
      ⟨500, none, none, .json "Internal error"⟩) ∧
    (∀ f, (upstream f).ok = false →
      postHandler (.ok (some f)) upstream =
        ⟨500, none, none, .json "Backend conversion failed"⟩) ∧
    (∀ f, (upstream f).ok = true →
      postHandler (.ok (some f)) upstream =
        ⟨200, some "video/mp4", some "attachment; filename=logo360.mp4",
          .stream (upstream f).body⟩) := by
  refine ⟨rfl, fun e => rfl, ?_, ?_⟩
  · intro f hf
    simp [postHandler, hf]
  · intro f hf
    simp [postHandler, hf]

/-- Witness for claim C8: an upstream that always fails yields the 500 structured
error. -/
theorem postHandler_contract_witness :
    postHandler (.ok (some ⟨"logo360.webm", "webm-bytes"⟩))
        (fun _ => ⟨false, ""⟩) =
      ⟨500, none, none, .json "Backend conversion failed"⟩ :=
  (postHandler_contract (fun _ => ⟨false, ""⟩)).2.2.1
    ⟨"logo360.webm", "webm-bytes"⟩ rfl

/-- Claim C9: three rapid slider changes (10 then 20 then 30) within one
interaction frame update the displayed label synchronously to each
value, while the queued low-priority `setThickness` updates coalesce in
one transition flush into a single committed value 30 — triggering
exactly one geometry rebuild, with depth 30, not three. -/
theorem slider_coalesces (s0 : SliderUI) (hq0 : s0.transQueue = [])
    (hne : s0.thickness ≠ 30) :
    (onThicknessChange s0 10).label = 10 ∧
    (onThicknessChange (onThicknessChange s0 10) 20).label = 20 ∧
    (onThicknessChange (onThicknessChange (onThicknessChange s0 10) 20)
      30).label = 30 ∧
    (flushTransitions (onThicknessChange (onThicknessChange
      (onThicknessChange s0 10) 20) 30)).2 = [30] ∧
    (flushTransitions (onThicknessChange (onThicknessChange
      (onThicknessChange s0 10) 20) 30)).1.thickness = 30 := by
  have hstate : onThicknessChange (onThicknessChange
      (onThicknessChange s0 10) 20) 30 =
      { label := 30, thickness := s0.thickness, transQueue := [10, 20, 30] } := by
    simp [onThicknessChange, hq0]
  refine ⟨rfl, rfl, rfl, ?_, ?_⟩ <;>
    rw [hstate] <;>
    simp [flushTransitions, Ne.symm hne]

/-- Witness for claim C9: starting from committed thickness 15 with an empty
queue. -/
theorem slider_coalesces_witness :
    (onThicknessChange ⟨15, 15, []⟩ 10).label = 10 ∧
    (onThicknessChange (onThicknessChange ⟨15, 15, []⟩ 10) 20).label = 20 ∧
    (onThicknessChange (onThicknessChange (onThicknessChange ⟨15, 15, []⟩ 10)
      20) 30).label = 30 ∧
    (flushTransitions (onThicknessChange (onThicknessChange
      (onThicknessChange ⟨15, 15, []⟩ 10) 20) 30)).2 = [30] ∧
    (flushTransitions (onThicknessChange (onThicknessChange
      (onThicknessChange ⟨15, 15, []⟩ 10) 20) 30)).1.thickness = 30 :=
  slider_coalesces ⟨15, 15, []⟩ rfl (by decide)

/-- Counterexample for claim C5: the claim says that on every failure path the
renderer's clear alpha is restored to its snapshotted pre-capture
value; but the flow never snapshots the clear alpha — `onstop` sets it
to the constant 1 — so starting from a transparent clear alpha (0) and
failing during conversion leaves clear alpha at 1, not the pre-capture
value. -/
theorem clearAlpha_not_restored_cex :
    (runGenerateVideo s0Ex .convertFail).clearAlpha ≠ s0Ex.clearAlpha := by
  simp [runGenerateVideo, s0Ex]

/-- Claim C5, amended: on every failure path of the capture/export flow
(encoder failure or conversion failure) the group's rotation and
position equal their snapshotted pre-capture values, the pixel ratio
equals its snapshot, the clear alpha is set to the fixed opaque value 1
(not a snapshot), a user-visible alert is raised, the quality toggle is
back to low, and the flow returns to the idle (not generating) state. -/
theorem capture_failure_cleanup (s0 : CaptureState) (oc : CaptureOutcome)
    (h : oc ≠ .success) :
    (runGenerateVideo s0 oc).rot = s0.rot ∧
    (runGenerateVideo s0 oc).pos = s0.pos ∧
    (runGenerateVideo s0 oc).dpr = s0.dpr ∧
    (runGenerateVideo s0 oc).clearAlpha = 1 ∧
    (runGenerateVideo s0 oc).generating = false ∧
    (runGenerateVideo s0 oc).highQuality = false ∧
    (runGenerateVideo s0 oc).alerted = true := by
  cases oc with
  | encoderFail => simp [runGenerateVideo]
  | convertFail => simp [runGenerateVideo]
  | success => exact absurd rfl h

/-- Witness for claim C5: cleanup of the encoder-failure path from the concrete
transparent-background state. -/
theorem capture_failure_cleanup_witness :
    (runGenerateVideo s0Ex .encoderFail).rot = s0Ex.rot ∧
    (runGenerateVideo s0Ex .encoderFail).pos = s0Ex.pos ∧
    (runGenerateVideo s0Ex .encoderFail).dpr = s0Ex.dpr ∧
    (runGenerateVideo s0Ex .encoderFail).clearAlpha = 1 ∧
    (runGenerateVideo s0Ex .encoderFail).generating = false ∧
    (runGenerateVideo s0Ex .encoderFail).highQuality = false ∧
    (runGenerateVideo s0Ex .encoderFail).alerted = true :=
  capture_failure_cleanup s0Ex .encoderFail (by simp)
